import Mathlib

/-!
Shallow embedding of `src/main.rs` of the oxker repository: the startup
supervisor (`docker_init`), host resolution (`read_docker_host`),
containerised-mode detection (`check_if_containerised`), the input-handler
spawn (`handler_init`) and the top-level `main` with its headless loop.

Side-effecting code is embedded as functions producing explicit event
traces; the external bollard library (connect / ping) and the values the
shared state holds when read are environment inputs.  The headless loop is
fuel-indexed: `fuel` bounds how many iterations of the (unbounded) loop are
unrolled into the trace.
-/

namespace Oxker

/-- Error variant used by `main.rs` (`app_error.rs` is outside this file's
source; only the `DockerConnect` variant is referenced here). -/
inductive AppError
  | DockerConnect
deriving DecidableEq, Repr

/-- Status variant used by `main.rs` (`ui.rs` is outside this file's source;
only the `DockerConnect` variant is referenced here). -/
inductive Status
  | DockerConnect
deriving DecidableEq, Repr

/-- The live connection object produced by the bollard library; opaque to
`main.rs`, modelled as a tagged value. -/
structure Docker where
  id : Nat
deriving DecidableEq, Repr

/-- How `main.rs` asks bollard to connect (line 90-92): with the platform
default socket, or `connect_with_socket(&host, 120, API_DEFAULT_VERSION)`. -/
inductive ConnectMethod
  | socketDefaults
  | socket (host : String) (timeout : Nat)
deriving DecidableEq, Repr

/-- Names for the shared handles created in `main` (lines 146-150); the Arcs
and channel endpoints are identified by which handle they clone. -/
inductive SharedRef
  | appData
  | guiState
  | isRunning
  | dockerSx
  | dockerRx
  | inputSx
  | inputRx
deriving DecidableEq, Repr

/-- The arguments `docker_init` hands to the spawned `DockerData::init`
task (lines 99-106), in source order. -/
structure DockerDataArgs where
  app_data : SharedRef
  containerised : Bool
  docker : Docker
  docker_rx : SharedRef
  gui_state : SharedRef
  is_running : SharedRef
deriving DecidableEq, Repr

/-- The arguments `handler_init` hands to the spawned `InputHandler::init`
task (lines 128-134), in source order. -/
structure InputHandlerArgs where
  app_data : SharedRef
  input_rx : SharedRef
  docker_sx : SharedRef
  gui_state : SharedRef
  is_running : SharedRef
deriving DecidableEq, Repr

/-- Observable actions of `docker_init` (lines 90-115). -/
inductive InitEvent
  | connectAttempt (m : ConnectMethod)
  | pingAttempt (d : Docker)
  | spawnPoller (a : DockerDataArgs)
  | setError (e : AppError)
  | statusPush (s : Status)
deriving DecidableEq, Repr

def ENV_KEY : String := "OXKER_RUNTIME"

def ENV_VALUE : String := "container"

def DOCKER_HOST : String := "DOCKER_HOST"

/-- `check_if_containerised` (lines 60-67): true plus a 250 ms sleep when the
environment holds the pair `(OXKER_RUNTIME, container)`, else false with no
sleep.  The bool is the return value, the `Option Nat` the milliseconds
slept (the side effect of line 62). -/
def check_if_containerised (env_vars : List (String × String)) : Bool × Option Nat :=
  if env_vars.any (fun x => x == (ENV_KEY, ENV_VALUE)) then
    (true, some 250)
  else
    (false, none)

/-- `read_docker_host` (lines 70-79): the cli arg takes priority over the
first `DOCKER_HOST` environment entry. -/
def read_docker_host (args_host : Option String) (env_vars : List (String × String)) :
    Option String :=
  args_host.elim
    ((env_vars.find? (fun x => x.1 == DOCKER_HOST)).map (fun p => p.2))
    (fun x => some x)

/-- The connection method `docker_init` selects from the optional host
(lines 90-92): `map_or_else(Docker::connect_with_socket_defaults,
|host| Docker::connect_with_socket(&host, 120, API_DEFAULT_VERSION))`. -/
def connect_method (host : Option String) : ConnectMethod :=
  host.elim ConnectMethod.socketDefaults (fun h => ConnectMethod.socket h 120)

/-- `docker_init` (lines 82-115) as an event trace.  `connect` and `ping`
stand for the bollard library: `connect m` is the outcome of the single
connection attempt with method `m`, `ping d` the outcome of the single
liveness probe on connection `d`.  On double success the trace ends with
the `tokio::spawn` of `DockerData::init` (the JoinHandle is discarded, the
spawned task is not awaited); on any failure the fatal error is set and a
status message pushed, and nothing is spawned. -/
def docker_init (connect : ConnectMethod → Option Docker) (ping : Docker → Bool)
    (app_data : SharedRef) (containerised : Bool) (docker_rx : SharedRef)
    (gui_state : SharedRef) (is_running : SharedRef) (host : Option String) :
    List InitEvent :=
  let m := connect_method host
  match connect m with
  | some docker =>
      if ping docker then
        [InitEvent.connectAttempt m, InitEvent.pingAttempt docker,
         InitEvent.spawnPoller
           ⟨app_data, containerised, docker, docker_rx, gui_state, is_running⟩]
      else
        [InitEvent.connectAttempt m, InitEvent.pingAttempt docker,
         InitEvent.setError AppError.DockerConnect,
         InitEvent.statusPush Status.DockerConnect]
  | none =>
      [InitEvent.connectAttempt m,
       InitEvent.setError AppError.DockerConnect,
       InitEvent.statusPush Status.DockerConnect]

/-- `handler_init` (lines 118-135): clones the shared handles and spawns
`InputHandler::init` with them; the value is the argument record of the
spawned task. -/
def handler_init (app_data : SharedRef) (docker_sx : SharedRef) (gui_state : SharedRef)
    (input_rx : SharedRef) (is_running : SharedRef) : InputHandlerArgs :=
  ⟨app_data, input_rx, docker_sx, gui_state, is_running⟩

/-- Modelled from the spec: `AppData.set_error` (in `app_data.rs`, outside
this file's source) stores the fatal error into the Application Snapshot,
whose data model has "an optional current fatal error". -/
def set_error (s : Option AppError) (e : AppError) : Option AppError :=
  let _previous := s
  some e

/-- Modelled from the spec: `GuiState.status_push` (in `ui.rs`, outside this
file's source) pushes a status message onto the UI Snapshot's status queue.
The queue is bounded with oldest-first eviction; the single push performed
by `docker_init` never reaches any capacity, so eviction is not modelled. -/
def status_push (q : List Status) (s : Status) : List Status :=
  q ++ [s]

/-- The Application Snapshot's fatal-error field after replaying the
`docker_init` trace onto its startup value (`AppData::default`, no error). -/
def init_error (evs : List InitEvent) : Option AppError :=
  evs.foldl
    (fun s e =>
      match e with
      | InitEvent.setError err => set_error s err
      | _ => s)
    none

/-- The UI Snapshot's status queue after replaying the `docker_init` trace
onto its startup value (`GuiState::default`, empty queue). -/
def init_statuses (evs : List InitEvent) : List Status :=
  evs.foldl
    (fun q e =>
      match e with
      | InitEvent.statusPush s => status_push q s
      | _ => q)
    []

/-- Whether the `docker_init` trace spawned the Poller/Command actor. -/
def spawns_poller (evs : List InitEvent) : Bool :=
  evs.any (fun e =>
    match e with
    | InitEvent.spawnPoller _ => true
    | _ => false)

/-- Error value of a failed `tokio::sync::mpsc` send: the channel is closed
(its receiver dropped). -/
inductive SendError
  | closed
deriving DecidableEq, Repr

/-- Outcome of `docker_sx.send(DockerMessage::Update).await` (line 175). -/
def send_result (ok : Bool) : Except SendError Unit :=
  if ok then Except.ok () else Except.error SendError.closed

/-- What one pass of the headless loop body decides to do next. -/
inductive LoopControl
  | exitProcess (logged : AppError) (code : Nat)
  | continueLoop
deriving DecidableEq, Repr

/-- One iteration of the headless loop body (lines 171-179): if
`get_error()` yields an error it is logged and the process exits with
status 1; otherwise the send result is discarded by `.ok()` and the loop
continues. -/
def headless_body (err : Option AppError) (send_res : Except SendError Unit) :
    LoopControl :=
  match err with
  | some e => LoopControl.exitProcess e 1
  | none =>
      let _discarded := send_res.toOption
      LoopControl.continueLoop

/-- Observable events of `main` (lines 138-183). -/
inductive MainEvent
  | startupSleep (ms : Nat)
  | initEvent (e : InitEvent)
  | spawnInputHandler (a : InputHandlerArgs)
  | uiCreate
  | logError (e : AppError)
  | sentUpdate
  | slept (ms : Nat)
  | processExit (code : Nat)
deriving DecidableEq, Repr

/-- The inner headless loop (lines 170-180), trace of its first `fuel`
iterations starting at iteration `n`.  `err_at k` is what
`app_data.lock().get_error()` returns at iteration `k`, `send_ok k`
whether the `Update` send succeeds there, `interval` the configured
`docker_interval` slept after each send. -/
def headless_iterations (err_at : Nat → Option AppError) (send_ok : Nat → Bool)
    (interval : Nat) : Nat → Nat → List MainEvent
  | _, 0 => []
  | n, fuel + 1 =>
      match headless_body (err_at n) (send_result (send_ok n)) with
      | LoopControl.exitProcess e c =>
          [MainEvent.logError e, MainEvent.processExit c]
      | LoopControl.continueLoop =>
          MainEvent.sentUpdate :: MainEvent.slept interval ::
            headless_iterations err_at send_ok interval (n + 1) fuel

/-- The headless branch of `main` (lines 169-181):
`while is_running.load(Ordering::SeqCst) { loop { ... } }`.  The body of the
`while` is an unconditional inner `loop` that never breaks, so the run flag
is read exactly once, before the first iteration: of the successive values
`run_flag_reads` the code consults only index 0. -/
def headless_loop (run_flag_reads : Nat → Bool) (err_at : Nat → Option AppError)
    (send_ok : Nat → Bool) (interval : Nat) (fuel : Nat) : List MainEvent :=
  if run_flag_reads 0 then
    headless_iterations err_at send_ok interval 0 fuel
  else
    []

/-- Predicate on `docker_init` events: a connection attempt. -/
def is_connect_attempt : InitEvent → Bool
  | InitEvent.connectAttempt _ => true
  | _ => false

/-- Predicate on `docker_init` events: a liveness-probe (ping) attempt. -/
def is_ping_attempt : InitEvent → Bool
  | InitEvent.pingAttempt _ => true
  | _ => false

/-- Trace of `fuel` uninterrupted headless iterations: one `Update` send and
one interval sleep per iteration. -/
def update_cycles (interval : Nat) : Nat → List MainEvent
  | 0 => []
  | fuel + 1 =>
      MainEvent.sentUpdate :: MainEvent.slept interval :: update_cycles interval fuel

/-- Environment of a `main` run: the process environment and resolved cli
arguments, the bollard library behaviour, and the values concurrently
scheduled tasks make the shared state yield when `main` reads it. -/
structure MainEnv where
  env_vars : List (String × String)
  args_host : Option String
  args_gui : Bool
  docker_interval : Nat
  connect : ConnectMethod → Option Docker
  ping : Docker → Bool
  send_ok : Nat → Bool
  run_flag_reads : Nat → Bool
  poller_err : Nat → Option AppError

/-- The `docker_init` trace of a `main` run, with the shared handles and the
host resolved exactly as `main` does (lines 139-160). -/
def main_init_events (env : MainEnv) : List InitEvent :=
  docker_init env.connect env.ping SharedRef.appData
    (check_if_containerised env.env_vars).1 SharedRef.dockerRx SharedRef.guiState
    SharedRef.isRunning (read_docker_host env.args_host env.env_vars)

/-- Modelled from the spec: what `get_error()` returns at iteration `n` of
the headless loop.  When `docker_init` spawned the Poller actor, that
actor's concurrent writes (`docker_data.rs`, outside this file's source)
decide the field, so they are an environment input; when no Poller was
spawned, the field keeps the value `docker_init` left, since the only other
live task, the Input Actor, mutates UI-only state and the command channel
and never the Application Snapshot's fatal-error field. -/
def observed_error (env : MainEnv) (n : Nat) : Option AppError :=
  if spawns_poller (main_init_events env) then
    env.poller_err n
  else
    init_error (main_init_events env)

/-- `main` (lines 138-183) as an event trace: containerised check (with its
optional startup sleep), host resolution, awaited `docker_init`, the
input-handler spawn, then either the UI or the headless loop unrolled to
`fuel` iterations. -/
def main (env : MainEnv) (fuel : Nat) : List MainEvent :=
  let c := check_if_containerised env.env_vars
  (c.2.elim [] (fun ms => [MainEvent.startupSleep ms])) ++
  (main_init_events env).map MainEvent.initEvent ++
  [MainEvent.spawnInputHandler
    (handler_init SharedRef.appData SharedRef.dockerSx SharedRef.guiState
      SharedRef.inputRx SharedRef.isRunning)] ++
  (if env.args_gui then
    [MainEvent.uiCreate]
  else
    headless_loop env.run_flag_reads (observed_error env) env.send_ok
      env.docker_interval fuel)

/-- Under a connect or ping failure, the `docker_init` trace records the
fatal error. -/
lemma init_error_of_failure (connect : ConnectMethod → Option Docker)
    (ping : Docker → Bool) (a : SharedRef) (c : Bool) (rx g r : SharedRef)
    (host : Option String)
    (h : connect (connect_method host) = none ∨
      ∃ d, connect (connect_method host) = some d ∧ ping d = false) :
    init_error (docker_init connect ping a c rx g r host) = some AppError.DockerConnect := by
  rcases h with h | ⟨d, hd, hp⟩
  · simp [docker_init, h, init_error, set_error]
  · simp [docker_init, hd, hp, init_error, set_error]

/-- Under a connect or ping failure, the `docker_init` trace spawns no
Poller actor. -/
lemma spawns_poller_of_failure (connect : ConnectMethod → Option Docker)
    (ping : Docker → Bool) (a : SharedRef) (c : Bool) (rx g r : SharedRef)
    (host : Option String)
    (h : connect (connect_method host) = none ∨
      ∃ d, connect (connect_method host) = some d ∧ ping d = false) :
    spawns_poller (docker_init connect ping a c rx g r host) = false := by
  rcases h with h | ⟨d, hd, hp⟩
  · simp [docker_init, h, spawns_poller]
  · simp [docker_init, hd, hp, spawns_poller]

/-- C1: whenever the connection attempt or the liveness ping fails,
`docker_init` records the fatal `DockerConnect` error in the Application
Snapshot, pushes a `DockerConnect` status message into the UI Snapshot, and
does not spawn the Poller/Command actor. -/
theorem c1_docker_init_failure (connect : ConnectMethod → Option Docker)
    (ping : Docker → Bool) (a : SharedRef) (c : Bool) (rx g r : SharedRef)
    (host : Option String)
    (h : connect (connect_method host) = none ∨
      ∃ d, connect (connect_method host) = some d ∧ ping d = false) :
    InitEvent.setError AppError.DockerConnect ∈ docker_init connect ping a c rx g r host ∧
    init_error (docker_init connect ping a c rx g r host) = some AppError.DockerConnect ∧
    InitEvent.statusPush Status.DockerConnect ∈ docker_init connect ping a c rx g r host ∧
    Status.DockerConnect ∈ init_statuses (docker_init connect ping a c rx g r host) ∧
    ∀ args, InitEvent.spawnPoller args ∉ docker_init connect ping a c rx g r host := by
  rcases h with hf | ⟨d, hd, hp⟩
  · refine ⟨?_, ?_, ?_, ?_, ?_⟩ <;>
      simp [docker_init, hf, init_error, set_error, init_statuses, status_push]
  · refine ⟨?_, ?_, ?_, ?_, ?_⟩ <;>
      simp [docker_init, hd, hp, init_error, set_error, init_statuses, status_push]

/-- C1 witness: a concrete failing connect. -/
theorem c1_docker_init_failure_witness :
    InitEvent.setError AppError.DockerConnect ∈
      docker_init (fun _ => none) (fun _ => true) SharedRef.appData false
        SharedRef.dockerRx SharedRef.guiState SharedRef.isRunning none ∧
    init_error (docker_init (fun _ => none) (fun _ => true) SharedRef.appData false
      SharedRef.dockerRx SharedRef.guiState SharedRef.isRunning none) =
        some AppError.DockerConnect ∧
    InitEvent.statusPush Status.DockerConnect ∈
      docker_init (fun _ => none) (fun _ => true) SharedRef.appData false
        SharedRef.dockerRx SharedRef.guiState SharedRef.isRunning none ∧
    Status.DockerConnect ∈ init_statuses (docker_init (fun _ => none) (fun _ => true)
      SharedRef.appData false SharedRef.dockerRx SharedRef.guiState SharedRef.isRunning none) ∧
    ∀ args, InitEvent.spawnPoller args ∉
      docker_init (fun _ => none) (fun _ => true) SharedRef.appData false
        SharedRef.dockerRx SharedRef.guiState SharedRef.isRunning none :=
  c1_docker_init_failure (fun _ => none) (fun _ => true) SharedRef.appData false
    SharedRef.dockerRx SharedRef.guiState SharedRef.isRunning none (Or.inl rfl)

/-- C4: host resolution priority: an explicit cli host is returned as-is for
every environment; otherwise the first `DOCKER_HOST` environment entry is
returned; otherwise `None` is returned and `docker_init` then attempts the
connection with the platform default socket. -/
theorem c4_read_docker_host_priority (h : String) (env_vars : List (String × String)) :
    read_docker_host (some h) env_vars = some h ∧
    (∀ p : String × String, env_vars.find? (fun x => x.1 == DOCKER_HOST) = some p →
      read_docker_host none env_vars = some p.2) ∧
    (env_vars.find? (fun x => x.1 == DOCKER_HOST) = none →
      read_docker_host none env_vars = none ∧
      ∀ (connect : ConnectMethod → Option Docker) (ping : Docker → Bool)
        (a : SharedRef) (c : Bool) (rx g r : SharedRef),
        (docker_init connect ping a c rx g r (read_docker_host none env_vars)).head? =
          some (InitEvent.connectAttempt ConnectMethod.socketDefaults)) := by
  refine ⟨rfl, ?_, ?_⟩
  · intro p hp
    simp [read_docker_host, hp]
  · intro hnone
    have hread : read_docker_host none env_vars = none := by
      simp [read_docker_host, hnone]
    refine ⟨hread, ?_⟩
    intro connect ping a c rx g r
    rw [hread]
    cases hc : connect ConnectMethod.socketDefaults with
    | none => simp [docker_init, connect_method, hc]
    | some d => cases hp : ping d <;> simp [docker_init, connect_method, hc, hp]

/-- C4 witness: concrete cli host, environment host, and empty environment. -/
theorem c4_read_docker_host_priority_witness :
    read_docker_host (some "tcp://remote") [(DOCKER_HOST, "unix:///sock")] =
      some "tcp://remote" ∧
    read_docker_host none [(DOCKER_HOST, "unix:///sock")] =
      some ((DOCKER_HOST, "unix:///sock").2) ∧
    read_docker_host none [] = none ∧
    (docker_init (fun _ => none) (fun _ => true) SharedRef.appData false
      SharedRef.dockerRx SharedRef.guiState SharedRef.isRunning
      (read_docker_host none [])).head? =
        some (InitEvent.connectAttempt ConnectMethod.socketDefaults) :=
  ⟨(c4_read_docker_host_priority "tcp://remote" [(DOCKER_HOST, "unix:///sock")]).1,
   (c4_read_docker_host_priority "x" [(DOCKER_HOST, "unix:///sock")]).2.1
     (DOCKER_HOST, "unix:///sock") (by rfl),
   ((c4_read_docker_host_priority "x" []).2.2 rfl).1,
   ((c4_read_docker_host_priority "x" []).2.2 rfl).2 (fun _ => none) (fun _ => true)
     SharedRef.appData false SharedRef.dockerRx SharedRef.guiState SharedRef.isRunning⟩

/-- C5: when connect and ping both succeed, `docker_init` spawns the
Poller/Command actor handed exactly the live connection, records no error,
pushes no status message, and its trace ends at the (non-awaited) spawn. -/
theorem c5_docker_init_success (connect : ConnectMethod → Option Docker)
    (ping : Docker → Bool) (a : SharedRef) (c : Bool) (rx g r : SharedRef)
    (host : Option String) (d : Docker)
    (hd : connect (connect_method host) = some d) (hp : ping d = true) :
    docker_init connect ping a c rx g r host =
      [InitEvent.connectAttempt (connect_method host), InitEvent.pingAttempt d,
       InitEvent.spawnPoller ⟨a, c, d, rx, g, r⟩] ∧
    init_error (docker_init connect ping a c rx g r host) = none ∧
    init_statuses (docker_init connect ping a c rx g r host) = [] ∧
    (∀ e, InitEvent.setError e ∉ docker_init connect ping a c rx g r host) ∧
    (∀ s, InitEvent.statusPush s ∉ docker_init connect ping a c rx g r host) := by
  refine ⟨?_, ?_, ?_, ?_, ?_⟩ <;> simp [docker_init, hd, hp, init_error, init_statuses]

/-- C5 witness: a concrete successful connect and ping. -/
theorem c5_docker_init_success_witness :
    docker_init (fun _ => some ⟨0⟩) (fun _ => true) SharedRef.appData true
      SharedRef.dockerRx SharedRef.guiState SharedRef.isRunning none =
      [InitEvent.connectAttempt (connect_method none), InitEvent.pingAttempt ⟨0⟩,
       InitEvent.spawnPoller ⟨SharedRef.appData, true, ⟨0⟩, SharedRef.dockerRx,
         SharedRef.guiState, SharedRef.isRunning⟩] ∧
    init_error (docker_init (fun _ => some ⟨0⟩) (fun _ => true) SharedRef.appData true
      SharedRef.dockerRx SharedRef.guiState SharedRef.isRunning none) = none ∧
    init_statuses (docker_init (fun _ => some ⟨0⟩) (fun _ => true) SharedRef.appData true
      SharedRef.dockerRx SharedRef.guiState SharedRef.isRunning none) = [] ∧
    (∀ e, InitEvent.setError e ∉ docker_init (fun _ => some ⟨0⟩) (fun _ => true)
      SharedRef.appData true SharedRef.dockerRx SharedRef.guiState SharedRef.isRunning none) ∧
    (∀ s, InitEvent.statusPush s ∉ docker_init (fun _ => some ⟨0⟩) (fun _ => true)
      SharedRef.appData true SharedRef.dockerRx SharedRef.guiState SharedRef.isRunning none) :=
  c5_docker_init_success (fun _ => some ⟨0⟩) (fun _ => true) SharedRef.appData true
    SharedRef.dockerRx SharedRef.guiState SharedRef.isRunning none ⟨0⟩ rfl rfl

/-- C6: no retries: every `docker_init` trace holds exactly one connection
attempt and at most one ping attempt, and a ping attempt is made precisely
when the connection attempt succeeded. -/
theorem c6_docker_init_no_retries (connect : ConnectMethod → Option Docker)
    (ping : Docker → Bool) (a : SharedRef) (c : Bool) (rx g r : SharedRef)
    (host : Option String) :
    (docker_init connect ping a c rx g r host).countP is_connect_attempt = 1 ∧
    (docker_init connect ping a c rx g r host).countP is_ping_attempt ≤ 1 ∧
    ((docker_init connect ping a c rx g r host).countP is_ping_attempt = 1 ↔
      (connect (connect_method host)).isSome = true) := by
  cases hd : connect (connect_method host) with
  | none => simp [docker_init, hd, is_connect_attempt, is_ping_attempt]
  | some d =>
      cases hp : ping d <;>
        simp [docker_init, hd, hp, is_connect_attempt, is_ping_attempt]

/-- With no fatal error in sight, the headless iterations are exactly the
uninterrupted update cycles. -/
lemma headless_iterations_of_no_error (err_at : Nat → Option AppError)
    (send_ok : Nat → Bool) (interval : Nat) (hnone : ∀ k, err_at k = none) :
    ∀ fuel n, headless_iterations err_at send_ok interval n fuel = update_cycles interval fuel := by
  intro fuel
  induction fuel with
  | zero => intro n; rfl
  | succ m ih =>
      intro n
      simp [headless_iterations, headless_body, hnone n, update_cycles, ih]

/-- The uninterrupted update cycles contain one `Update` send per iteration. -/
lemma update_cycles_count_sent (interval : Nat) :
    ∀ fuel, (update_cycles interval fuel).count MainEvent.sentUpdate = fuel := by
  intro fuel
  induction fuel with
  | zero => rfl
  | succ m ih => simp [update_cycles, List.count_cons, ih]

/-- The uninterrupted update cycles contain no process exit. -/
lemma processExit_not_mem_update_cycles (interval c : Nat) :
    ∀ fuel, MainEvent.processExit c ∉ update_cycles interval fuel := by
  intro fuel
  induction fuel with
  | zero => simp [update_cycles]
  | succ m ih => simp [update_cycles, ih]

/-- When the first fatal error appears at iteration `k`, the headless
iterations run `k` full cycles and then log the error and exit 1. -/
lemma headless_iterations_of_first_error (err_at : Nat → Option AppError)
    (send_ok : Nat → Bool) (interval : Nat) (e : AppError) :
    ∀ k fuel n, (∀ i, i < k → err_at (n + i) = none) → err_at (n + k) = some e →
      k < fuel →
      headless_iterations err_at send_ok interval n fuel =
        update_cycles interval k ++ [MainEvent.logError e, MainEvent.processExit 1] := by
  intro k
  induction k with
  | zero =>
      intro fuel n _ hk hlt
      cases fuel with
      | zero => omega
      | succ m =>
          have hk0 : err_at n = some e := by simpa using hk
          simp [headless_iterations, headless_body, hk0, update_cycles]
  | succ j ih =>
      intro fuel n hpre hk hlt
      cases fuel with
      | zero => omega
      | succ m =>
          have h0 : err_at n = none := by simpa using hpre 0 (by omega)
          have hpre1 : ∀ i, i < j → err_at (n + 1 + i) = none := by
            intro i hi
            have hs : n + 1 + i = n + (i + 1) := by omega
            rw [hs]
            exact hpre (i + 1) (by omega)
          have hk1 : err_at (n + 1 + j) = some e := by
            have hs : n + 1 + j = n + (j + 1) := by omega
            rw [hs]
            exact hk
          simp [headless_iterations, headless_body, h0, update_cycles]
          exact ih m (n + 1) hpre1 hk1 (by omega)

/-- C2: in headless mode (loop entered with the run flag true), with no
fatal error the loop sends one `Update` per polling interval forever and
never exits the process; as soon as the Application Snapshot holds a fatal
error, the loop logs it and exits the process with status 1. -/
theorem c2_headless_mode (err_at : Nat → Option AppError) (send_ok : Nat → Bool)
    (interval fuel k : Nat) (e : AppError) :
    ((∀ n, err_at n = none) →
      headless_loop (fun _ => true) err_at send_ok interval fuel =
        update_cycles interval fuel ∧
      (update_cycles interval fuel).count MainEvent.sentUpdate = fuel ∧
      ∀ c, MainEvent.processExit c ∉
        headless_loop (fun _ => true) err_at send_ok interval fuel) ∧
    ((∀ i, i < k → err_at i = none) → err_at k = some e → k < fuel →
      headless_loop (fun _ => true) err_at send_ok interval fuel =
        update_cycles interval k ++ [MainEvent.logError e, MainEvent.processExit 1]) := by
  constructor
  · intro hnone
    have hiter := headless_iterations_of_no_error err_at send_ok interval hnone fuel 0
    refine ⟨?_, update_cycles_count_sent interval fuel, ?_⟩
    · simpa [headless_loop] using hiter
    · intro c
      simp only [headless_loop, if_pos rfl, hiter]
      exact processExit_not_mem_update_cycles interval c fuel
  · intro hpre hk hlt
    have hiter := headless_iterations_of_first_error err_at send_ok interval e k fuel 0
      (by simpa using hpre) (by simpa using hk) hlt
    simpa [headless_loop] using hiter

/-- C2 witness: two error-free iterations, and an error surfacing at the
second iteration. -/
theorem c2_headless_mode_witness :
    (headless_loop (fun _ => true) (fun _ => none) (fun _ => true) 5 2 =
        update_cycles 5 2 ∧
      (update_cycles 5 2).count MainEvent.sentUpdate = 2 ∧
      ∀ c, MainEvent.processExit c ∉
        headless_loop (fun _ => true) (fun _ => none) (fun _ => true) 5 2) ∧
    headless_loop (fun _ => true)
        (fun n => if n = 1 then some AppError.DockerConnect else none)
        (fun _ => true) 5 3 =
      update_cycles 5 1 ++ [MainEvent.logError AppError.DockerConnect,
        MainEvent.processExit 1] :=
  ⟨(c2_headless_mode (fun _ => none) (fun _ => true) 5 2 0 AppError.DockerConnect).1
      (fun _ => rfl),
   (c2_headless_mode (fun n => if n = 1 then some AppError.DockerConnect else none)
      (fun _ => true) 5 3 1 AppError.DockerConnect).2
     (by intro i hi; interval_cases i; rfl) (by norm_num) (by norm_num)⟩

/-- C3: the run flag is read only once, before the first headless iteration:
the loop trace is identical for any two flag histories agreeing at index 0,
and concretely, with the flag dropping to false right after entry and no
fatal error, the loop keeps sending `Update` and never exits. -/
theorem c3_run_flag_read_once :
    (∀ (run_flag_reads : Nat → Bool) (err_at : Nat → Option AppError)
      (send_ok : Nat → Bool) (interval fuel : Nat),
      headless_loop run_flag_reads err_at send_ok interval fuel =
        headless_loop (fun _ => run_flag_reads 0) err_at send_ok interval fuel) ∧
    headless_loop (fun n => n == 0) (fun _ => none) (fun _ => true) 1000 3 =
      [MainEvent.sentUpdate, MainEvent.slept 1000, MainEvent.sentUpdate,
       MainEvent.slept 1000, MainEvent.sentUpdate, MainEvent.slept 1000] ∧
    ∀ c, MainEvent.processExit c ∉
      headless_loop (fun n => n == 0) (fun _ => none) (fun _ => true) 1000 3 := by
  have htrace : headless_loop (fun n => n == 0) (fun _ => none) (fun _ => true) 1000 3 =
      [MainEvent.sentUpdate, MainEvent.slept 1000, MainEvent.sentUpdate,
       MainEvent.slept 1000, MainEvent.sentUpdate, MainEvent.slept 1000] := by decide
  refine ⟨fun _ _ _ _ _ => rfl, htrace, ?_⟩
  intro c
  rw [htrace]
  simp

/-- The headless iteration trace does not depend on the send outcomes: the
result of each `Update` send is discarded. -/
lemma headless_iterations_send_independent (err_at : Nat → Option AppError)
    (send_ok send_ok2 : Nat → Bool) (interval : Nat) :
    ∀ fuel n, headless_iterations err_at send_ok interval n fuel =
      headless_iterations err_at send_ok2 interval n fuel := by
  intro fuel
  induction fuel with
  | zero => intro n; rfl
  | succ m ih =>
      intro n
      cases he : err_at n <;> simp [headless_iterations, headless_body, he, ih]

/-- A process exit in the headless iteration trace can only come from the
fatal-error check. -/
lemma headless_iterations_exit_needs_error (err_at : Nat → Option AppError)
    (send_ok : Nat → Bool) (interval c : Nat) :
    ∀ fuel n, MainEvent.processExit c ∈ headless_iterations err_at send_ok interval n fuel →
      ∃ k e, err_at k = some e := by
  intro fuel
  induction fuel with
  | zero => intro n hmem; simp [headless_iterations] at hmem
  | succ m ih =>
      intro n hmem
      cases he : err_at n with
      | some e => exact ⟨n, e, he⟩
      | none =>
          simp [headless_iterations, headless_body, he] at hmem
          exact ih (n + 1) hmem

/-- C9: a failed `Update` send is silently ignored: the loop body with no
error always continues regardless of the send outcome, the whole trace is
independent of send outcomes, and the loop can exit the process only
through the fatal-error check. -/
theorem c9_send_failure_ignored (send_res : Except SendError Unit)
    (err_at : Nat → Option AppError) (send_ok send_ok2 : Nat → Bool)
    (interval fuel n c : Nat) :
    headless_body none send_res = LoopControl.continueLoop ∧
    headless_iterations err_at send_ok interval n fuel =
      headless_iterations err_at send_ok2 interval n fuel ∧
    (MainEvent.processExit c ∈ headless_iterations err_at send_ok interval n fuel →
      ∃ k e, err_at k = some e) :=
  ⟨rfl, headless_iterations_send_independent err_at send_ok send_ok2 interval fuel n,
   headless_iterations_exit_needs_error err_at send_ok interval c fuel n⟩

/-- C9 witness: a closed send error is ignored, and a concrete exit implies
a concrete recorded error. -/
theorem c9_send_failure_ignored_witness :
    headless_body none (Except.error SendError.closed) = LoopControl.continueLoop ∧
    ∃ k e, (fun _ : Nat => some AppError.DockerConnect) k = some e :=
  ⟨(c9_send_failure_ignored (Except.error SendError.closed)
      (fun _ => some AppError.DockerConnect) (fun _ => true) (fun _ => false) 5 1 0 1).1,
   (c9_send_failure_ignored (Except.error SendError.closed)
      (fun _ => some AppError.DockerConnect) (fun _ => true) (fun _ => false) 5 1 0 1).2.2
     (by decide)⟩

/-- The headless iterations never produce a startup sleep. -/
lemma startupSleep_not_mem_headless_iterations (err_at : Nat → Option AppError)
    (send_ok : Nat → Bool) (interval ms : Nat) :
    ∀ fuel n, MainEvent.startupSleep ms ∉ headless_iterations err_at send_ok interval n fuel := by
  intro fuel
  induction fuel with
  | zero => intro n; simp [headless_iterations]
  | succ m ih =>
      intro n
      cases he : err_at n <;> simp [headless_iterations, headless_body, he, ih]

/-- The headless loop never produces a startup sleep. -/
lemma startupSleep_not_mem_headless_loop (run_flag_reads : Nat → Bool)
    (err_at : Nat → Option AppError) (send_ok : Nat → Bool) (interval fuel ms : Nat) :
    MainEvent.startupSleep ms ∉ headless_loop run_flag_reads err_at send_ok interval fuel := by
  by_cases h : run_flag_reads 0 = true <;>
    simp [headless_loop, h, startupSleep_not_mem_headless_iterations]

/-- `check_if_containerised` on an environment holding the containerised
marker. -/
lemma check_if_containerised_pos (env_vars : List (String × String))
    (h : (ENV_KEY, ENV_VALUE) ∈ env_vars) :
    check_if_containerised env_vars = (true, some 250) := by
  have hany : env_vars.any (fun x => x == (ENV_KEY, ENV_VALUE)) = true := by
    simp only [List.any_eq_true, beq_iff_eq]
    exact ⟨(ENV_KEY, ENV_VALUE), h, rfl⟩
  simp [check_if_containerised, hany]

/-- `check_if_containerised` on an environment without the containerised
marker. -/
lemma check_if_containerised_neg (env_vars : List (String × String))
    (h : (ENV_KEY, ENV_VALUE) ∉ env_vars) :
    check_if_containerised env_vars = (false, none) := by
  have hany : env_vars.any (fun x => x == (ENV_KEY, ENV_VALUE)) = false := by
    simp only [List.any_eq_false, beq_iff_eq]
    intro x hx hxe
    exact h (hxe ▸ hx)
  simp [check_if_containerised, hany]

/-- C7: `check_if_containerised` yields true plus the 250 ms startup sleep
exactly when the environment holds `OXKER_RUNTIME=container`, yields false
with no sleep otherwise, and a startup sleep appears in a `main` trace only
in that containerised case (and only as 250 ms). -/
theorem c7_containerised_only_startup_delay (env_vars : List (String × String))
    (env : MainEnv) (fuel ms : Nat) :
    (check_if_containerised env_vars = (true, some 250) ↔
      (ENV_KEY, ENV_VALUE) ∈ env_vars) ∧
    (check_if_containerised env_vars = (false, none) ↔
      (ENV_KEY, ENV_VALUE) ∉ env_vars) ∧
    (MainEvent.startupSleep ms ∈ main env fuel ↔
      ((ENV_KEY, ENV_VALUE) ∈ env.env_vars ∧ ms = 250)) := by
  refine ⟨⟨?_, check_if_containerised_pos env_vars⟩,
    ⟨?_, check_if_containerised_neg env_vars⟩, ?_⟩
  · intro heq
    by_contra hmem
    rw [check_if_containerised_neg env_vars hmem] at heq
    simp at heq
  · intro heq hmem
    rw [check_if_containerised_pos env_vars hmem] at heq
    simp at heq
  · by_cases hg : env.args_gui <;>
      by_cases hmem : (ENV_KEY, ENV_VALUE) ∈ env.env_vars
    · simp [main, check_if_containerised_pos env.env_vars hmem, hmem, hg, Option.elim]
    · simp [main, check_if_containerised_neg env.env_vars hmem, hmem, hg, Option.elim]
    · simp [main, check_if_containerised_pos env.env_vars hmem, hmem, hg, Option.elim,
        startupSleep_not_mem_headless_loop]
    · simp [main, check_if_containerised_neg env.env_vars hmem, hmem, hg, Option.elim,
        startupSleep_not_mem_headless_loop]

/-- C8: for every run — connect/probe success or failure, UI or headless —
`main` spawns the input-handler task, handing it the shared Application
Snapshot, the inbound input channel, the command-channel sender, the UI
Snapshot and the run flag. -/
theorem c8_input_actor_always_spawned (env : MainEnv) (fuel : Nat) :
    MainEvent.spawnInputHandler (handler_init SharedRef.appData SharedRef.dockerSx
      SharedRef.guiState SharedRef.inputRx SharedRef.isRunning) ∈ main env fuel ∧
    handler_init SharedRef.appData SharedRef.dockerSx SharedRef.guiState
      SharedRef.inputRx SharedRef.isRunning =
      ⟨SharedRef.appData, SharedRef.inputRx, SharedRef.dockerSx, SharedRef.guiState,
        SharedRef.isRunning⟩ := by
  refine ⟨?_, rfl⟩
  simp [main]

/-- A failing `docker_init` of a `main` run spawns no Poller and leaves the
fatal `DockerConnect` error recorded. -/
lemma main_init_failure (env : MainEnv)
    (hfail : env.connect (connect_method (read_docker_host env.args_host env.env_vars)) = none ∨
      ∃ d, env.connect (connect_method (read_docker_host env.args_host env.env_vars)) = some d ∧
        env.ping d = false) :
    spawns_poller (main_init_events env) = false ∧
    init_error (main_init_events env) = some AppError.DockerConnect :=
  ⟨spawns_poller_of_failure env.connect env.ping SharedRef.appData
      (check_if_containerised env.env_vars).1 SharedRef.dockerRx SharedRef.guiState
      SharedRef.isRunning (read_docker_host env.args_host env.env_vars) hfail,
   init_error_of_failure env.connect env.ping SharedRef.appData
      (check_if_containerised env.env_vars).1 SharedRef.dockerRx SharedRef.guiState
      SharedRef.isRunning (read_docker_host env.args_host env.env_vars) hfail⟩

/-- C10: startup is strictly sequenced: the whole `docker_init` trace
precedes the input-handler spawn and the loop; on a startup connect or ping
failure in headless mode, the loop's very first iteration logs the fatal
error and exits with status 1, and no `Update` is ever sent. -/
theorem c10_startup_failure_sequencing (env : MainEnv) (fuel : Nat)
    (hgui : env.args_gui = false) (hrun : env.run_flag_reads 0 = true)
    (hfuel : 0 < fuel)
    (hfail : env.connect (connect_method (read_docker_host env.args_host env.env_vars)) = none ∨
      ∃ d, env.connect (connect_method (read_docker_host env.args_host env.env_vars)) = some d ∧
        env.ping d = false) :
    main env fuel =
      ((check_if_containerised env.env_vars).2.elim []
        (fun ms => [MainEvent.startupSleep ms])) ++
      (main_init_events env).map MainEvent.initEvent ++
      [MainEvent.spawnInputHandler (handler_init SharedRef.appData SharedRef.dockerSx
          SharedRef.guiState SharedRef.inputRx SharedRef.isRunning),
       MainEvent.logError AppError.DockerConnect, MainEvent.processExit 1] ∧
    MainEvent.sentUpdate ∉ main env fuel := by
  obtain ⟨hsp, herr⟩ := main_init_failure env hfail
  have herrat : observed_error env 0 = some AppError.DockerConnect := by
    simp [observed_error, hsp, herr]
  have hloop : headless_loop env.run_flag_reads (observed_error env) env.send_ok
      env.docker_interval fuel =
      [MainEvent.logError AppError.DockerConnect, MainEvent.processExit 1] := by
    cases fuel with
    | zero => omega
    | succ m => simp [headless_loop, hrun, headless_iterations, headless_body, herrat]
  have hmain : main env fuel =
      ((check_if_containerised env.env_vars).2.elim []
        (fun ms => [MainEvent.startupSleep ms])) ++
      (main_init_events env).map MainEvent.initEvent ++
      [MainEvent.spawnInputHandler (handler_init SharedRef.appData SharedRef.dockerSx
          SharedRef.guiState SharedRef.inputRx SharedRef.isRunning),
       MainEvent.logError AppError.DockerConnect, MainEvent.processExit 1] := by
    simp [main, hgui, hloop]
  refine ⟨hmain, ?_⟩
  rw [hmain]
  cases hc2 : (check_if_containerised env.env_vars).2 <;>
    simp [hc2, List.mem_append, Option.elim]

/-- C10 witness: a concrete headless run whose connect fails: the trace is
the init failure, the input-handler spawn, the logged error and exit 1,
with no `Update` sent. -/
theorem c10_startup_failure_sequencing_witness :
    main ⟨[], none, false, 7, fun _ => none, fun _ => true, fun _ => true,
        fun _ => true, fun _ => none⟩ 2 =
      [MainEvent.initEvent (InitEvent.connectAttempt ConnectMethod.socketDefaults),
       MainEvent.initEvent (InitEvent.setError AppError.DockerConnect),
       MainEvent.initEvent (InitEvent.statusPush Status.DockerConnect),
       MainEvent.spawnInputHandler ⟨SharedRef.appData, SharedRef.inputRx,
         SharedRef.dockerSx, SharedRef.guiState, SharedRef.isRunning⟩,
       MainEvent.logError AppError.DockerConnect, MainEvent.processExit 1] ∧
    MainEvent.sentUpdate ∉
      main ⟨[], none, false, 7, fun _ => none, fun _ => true, fun _ => true,
        fun _ => true, fun _ => none⟩ 2 :=
  c10_startup_failure_sequencing
    ⟨[], none, false, 7, fun _ => none, fun _ => true, fun _ => true,
      fun _ => true, fun _ => none⟩ 2 rfl rfl (by omega) (Or.inl rfl)

end Oxker
